import Mathlib

/-!
Verification of `src/jupyterlab/__init__.py`, the server-extension
bootstrap module of the jupyterlab package.

The module, on import, reads two path constants `HERE` and `YARN_PATH`
from its sibling module `jlpmapp`, forwards them to three setters on
external configuration collaborators
(`jupyterlab_server.commands.set_here`,
`jupyterlab_server.commands.set_yarn_path`,
`jupyterlab_server.coreconfig.set_here`), re-exports
`load_jupyter_server_extension` and `__version__`, and defines the pure
descriptor function `_jupyter_server_extension_paths`.

The collaborators and the sibling module are outside the repository
fragment; they are modelled from the specification, which describes the
collaborators as simple in-process mutable globals (last write wins) and
the sibling module as resolving the two path constants, possibly failing.
-/

namespace Jupyterlab

/-- A Python dict with string keys and string values, embedded as an
association list preserving insertion order. -/
abbrev Dict := List (String × String)

/-- `_jupyter_server_extension_paths` (src/jupyterlab/__init__.py,
lines 18–19): `return [{'module': 'jupyterlab'}]`. -/
def _jupyter_server_extension_paths : List Dict :=
  [[("module", "jupyterlab")]]

/-- Modelled from the spec: the sibling module `jupyterlab/jlpmapp.py` is
not part of the fragment; the spec says it resolves a Base Directory
(`HERE`) and a Package-Manager Path (`YARN_PATH`), two path-like string
constants. -/
structure Jlpmapp where
  HERE : String
  YARN_PATH : String
deriving DecidableEq

/-- Modelled from the spec: the configuration collaborators
(`jupyterlab_server.commands` and `jupyterlab_server.coreconfig`) are
"simple in-process mutable globals with no concurrent-writer contention".
`none` means not yet registered.  `other` stands for all collaborator
state this fragment never touches (frame). -/
structure CollabState where
  commands_here : Option String
  commands_yarn_path : Option String
  coreconfig_here : Option String
  other : List (String × String)
deriving DecidableEq

/-- Modelled from the spec: `jupyterlab_server.commands.set_here` registers
the base-directory path; "calling it twice with the same values is
harmless, with different values the later call wins". -/
def set_here (p : String) (s : CollabState) : CollabState :=
  { s with commands_here := some p }

/-- Modelled from the spec: `jupyterlab_server.commands.set_yarn_path`
registers the package-manager executable path. -/
def set_yarn_path (p : String) (s : CollabState) : CollabState :=
  { s with commands_yarn_path := some p }

/-- Modelled from the spec: `jupyterlab_server.coreconfig.set_here`
(imported as `set_config_here`) registers the base-directory path for the
core-config collaborator. -/
def set_config_here (p : String) (s : CollabState) : CollabState :=
  { s with coreconfig_here := some p }

/-- One outbound boundary call made by the fragment. -/
inductive SetterCall where
  | here (p : String)
  | yarnPath (p : String)
  | configHere (p : String)
deriving DecidableEq

/-- Semantics of one boundary call on collaborator state. -/
def applyCall : SetterCall → CollabState → CollabState
  | .here p, s => set_here p s
  | .yarnPath p, s => set_yarn_path p s
  | .configHere p, s => set_config_here p s

/-- The boundary calls issued by module initialization, in source order
(src/jupyterlab/__init__.py, lines 14–16):
`set_here(HERE)`, `set_yarn_path(YARN_PATH)`, `set_config_here(HERE)`. -/
def initCalls (j : Jlpmapp) : List SetterCall :=
  [.here j.HERE, .yarnPath j.YARN_PATH, .configHere j.HERE]

/-- Apply a list of boundary calls left to right. -/
def applyCalls (cs : List SetterCall) (s : CollabState) : CollabState :=
  cs.foldl (fun s c => applyCall c s) s

/-- The state transformation performed by module initialization when the
sibling module resolved successfully. -/
def moduleInit (j : Jlpmapp) (s : CollabState) : CollabState :=
  applyCalls (initCalls j) s

/-- Run boundary calls left to right, stopping at the first call for which
`raises` is true; the returned state keeps the effect of the calls already
applied, and the Bool records whether all calls completed. -/
def runCalls (raises : SetterCall → Bool) :
    List SetterCall → CollabState → CollabState × Bool
  | [], s => (s, true)
  | c :: cs, s =>
      if raises c then (s, false) else runCalls raises cs (applyCall c s)

/-- The import environment of `src/jupyterlab/__init__.py`: the sibling
`_version` module's version string (line 6), the companion package's
extension-loading function (line 7, of abstract type `L`), and the result
of resolving the sibling `jlpmapp` module's constants (lines 11–12), which
may fail. -/
structure Env (L : Type) where
  version : String
  server_load : L
  jlpmapp : Except String Jlpmapp

/-- The public surface of the module once it has loaded: the re-exported
`__version__`, the re-exported `load_jupyter_server_extension`, and the
descriptor function's fixed return value. -/
structure LoadedModule (L : Type) where
  version : String
  load_jupyter_server_extension : L
  extension_paths : List Dict
deriving DecidableEq

/-- Importing `src/jupyterlab/__init__.py`: if the sibling module fails to
resolve (lines 11–12 raise), the import fails before any setter runs and
the collaborator state is untouched; otherwise the three setters of lines
14–16 run in order and the module's surface becomes available.  The third
component records exactly the boundary calls that were issued. -/
def importJupyterlab {L : Type} (env : Env L) (s : CollabState) :
    Except String (LoadedModule L) × CollabState × List SetterCall :=
  match env.jlpmapp with
  | .error e => (.error e, s, [])
  | .ok j =>
      (.ok { version := env.version,
             load_jupyter_server_extension := env.server_load,
             extension_paths := _jupyter_server_extension_paths },
       moduleInit j s, initCalls j)

/-- The descriptor query as an operation over collaborator state: lines
18–19 contain no state access, so it reads nothing and writes nothing. -/
def queryExtensionPaths (s : CollabState) : List Dict × CollabState :=
  (_jupyter_server_extension_paths, s)

/-- C1: the descriptor query, called with no arguments, always returns the
single-element sequence `[{'module': 'jupyterlab'}]`, identically on every
call and with no side effect on any state. -/
theorem C1_descriptor_query_fixed :
    _jupyter_server_extension_paths.length = 1 ∧
    _jupyter_server_extension_paths.map (fun d => d.lookup "module")
      = [some "jupyterlab"] ∧
    ∀ s : CollabState,
      queryExtensionPaths s = ([[("module", "jupyterlab")]], s) :=
  ⟨rfl, rfl, fun _ => rfl⟩

/-- C2: after module initialization completes without error, the
general-extension collaborator's registered base path equals the sibling
module's `HERE`, the core-config collaborator's registered base path
equals that same `HERE`, and the package-manager collaborator's registered
path equals the sibling module's `YARN_PATH`. -/
theorem C2_init_registers_paths {L : Type} (v : String) (l : L)
    (j : Jlpmapp) (s : CollabState) :
    (importJupyterlab ⟨v, l, .ok j⟩ s).2.1.commands_here = some j.HERE ∧
    (importJupyterlab ⟨v, l, .ok j⟩ s).2.1.coreconfig_here = some j.HERE ∧
    (importJupyterlab ⟨v, l, .ok j⟩ s).2.1.commands_yarn_path
      = some j.YARN_PATH :=
  ⟨rfl, rfl, rfl⟩

/-- C3: if the sibling module's resolution fails, the import fails as a
whole: the error propagates, no setter call is issued, the collaborator
state is unchanged, and no loaded-module surface (hence no reachable
descriptor query) is produced. -/
theorem C3_failure_no_partial_state {L : Type} (env : Env L)
    (s : CollabState) (e : String) (h : env.jlpmapp = .error e) :
    importJupyterlab env s = (.error e, s, []) := by
  simp [importJupyterlab, h]

/-- Witness for C3 at a concrete failing environment. -/
theorem C3_failure_no_partial_state_witness :
    importJupyterlab (L := String)
        ⟨"3.0.0", "load_fn", .error "jlpmapp resolution failed"⟩
        ⟨none, none, none, [("unrelated", "x")]⟩
      = (.error "jlpmapp resolution failed",
         ⟨none, none, none, [("unrelated", "x")]⟩, []) :=
  C3_failure_no_partial_state _ _ "jlpmapp resolution failed" rfl

/-- C4: each of the three registered values is written by exactly one
setter call of the initialization sequence, and the descriptor query
leaves the collaborator state (hence both registered values) unchanged. -/
theorem C4_set_once_then_immutable (j : Jlpmapp) (s : CollabState) :
    (initCalls j).countP
        (fun c => match c with | .here _ => true | _ => false) = 1 ∧
    (initCalls j).countP
        (fun c => match c with | .yarnPath _ => true | _ => false) = 1 ∧
    (initCalls j).countP
        (fun c => match c with | .configHere _ => true | _ => false) = 1 ∧
    (queryExtensionPaths s).2 = s :=
  ⟨rfl, rfl, rfl, rfl⟩

/-- C5: running module initialization a second time with the same sibling
values leaves the collaborator state exactly as after the first run. -/
theorem C5_init_idempotent (j : Jlpmapp) (s : CollabState) :
    moduleInit j (moduleInit j s) = moduleInit j s :=
  rfl

/-- C6: running module initialization twice with different sibling values
leaves each collaborator holding the value from the later run. -/
theorem C6_last_write_wins (j1 j2 : Jlpmapp) (s : CollabState) :
    moduleInit j2 (moduleInit j1 s) = moduleInit j2 s :=
  rfl

/-- C7: the only outbound mutations are the three setter calls of lines
14–16 (none at all when the import fails), all other collaborator state
(`other`) is untouched by initialization, and the descriptor query
mutates nothing. -/
theorem C7_frame_only_three_setters {L : Type} (v : String) (l : L)
    (j : Jlpmapp) (e : String) (s : CollabState) :
    (importJupyterlab ⟨v, l, .ok j⟩ s).2.2
      = [.here j.HERE, .yarnPath j.YARN_PATH, .configHere j.HERE] ∧
    (importJupyterlab ⟨v, l, .ok j⟩ s).2.1.other = s.other ∧
    (importJupyterlab ⟨v, l, .error e⟩ s).2.2 = [] ∧
    (importJupyterlab ⟨v, l, .error e⟩ s).2.1.other = s.other ∧
    (queryExtensionPaths s).2 = s :=
  ⟨rfl, rfl, rfl, rfl, rfl⟩

/-- C8: the module re-exports the companion package's extension-loading
function and the sibling `_version` module's version string unchanged: on
a successful import the loaded module's fields are exactly the imported
values. -/
theorem C8_reexports_unchanged {L : Type} (v : String) (l : L)
    (j : Jlpmapp) (s : CollabState) :
    (importJupyterlab ⟨v, l, .ok j⟩ s).1
      = .ok { version := v, load_jupyter_server_extension := l,
              extension_paths := _jupyter_server_extension_paths } ∧
    ((importJupyterlab ⟨v, l, .ok j⟩ s).1.toOption.map
        LoadedModule.load_jupyter_server_extension) = some l ∧
    ((importJupyterlab ⟨v, l, .ok j⟩ s).1.toOption.map
        LoadedModule.version) = some v :=
  ⟨rfl, rfl, rfl⟩

/-- C9: initialization issues the setters in the fixed order
`set_here(HERE)`, `set_yarn_path(YARN_PATH)`, `set_config_here(HERE)`;
consequently, if a later setter raises, the earlier registrations are
already applied: a raise in the first leaves the state untouched, a raise
in the second leaves exactly `set_here` applied, a raise in the third
leaves exactly `set_here` then `set_yarn_path` applied, and with no raise
the run coincides with `moduleInit`. -/
theorem C9_setter_order_and_partiality (j : Jlpmapp) (s : CollabState) :
    initCalls j = [.here j.HERE, .yarnPath j.YARN_PATH, .configHere j.HERE] ∧
    runCalls (fun c => match c with | .here _ => true | _ => false)
        (initCalls j) s = (s, false) ∧
    runCalls (fun c => match c with | .yarnPath _ => true | _ => false)
        (initCalls j) s = (set_here j.HERE s, false) ∧
    runCalls (fun c => match c with | .configHere _ => true | _ => false)
        (initCalls j) s
      = (set_yarn_path j.YARN_PATH (set_here j.HERE s), false) ∧
    runCalls (fun _ => false) (initCalls j) s = (moduleInit j s, true) :=
  ⟨rfl, rfl, rfl, rfl, rfl⟩

/-- C10: the single record returned by the descriptor query contains
exactly one key, `module`, and no other keys. -/
theorem C10_record_single_key :
    _jupyter_server_extension_paths.map (fun d => d.map Prod.fst)
      = [["module"]] :=
  rfl

end Jupyterlab
